import Mathlib

/-!
Shallow embedding of the GitHub webhook PR-review server
(`webhook_server/app.py`) and proofs about its specified behaviour.

Modelling conventions:

* External collaborators (the HMAC-SHA256 primitive of `hashlib`/`hmac`,
  the `ruff` linter, `ruff format`, `pytest`, the GitHub HTTP API, the
  filesystem) are not code of this repository.  They enter the model as
  explicit parameters (the digest function, tool exit codes / stdout) or
  as recorded effects (`Effect`), exactly at the program points where
  `app.py` invokes them.
* Python exceptions that escape a function are modelled by `Option`
  (`none` = the call raised) or `Except` where the calling code
  distinguishes the error; an uncaught exception escaping the Flask view
  function is the response `Response.serverError`.
* Machine strings are Lean `String`s; Python's `str.split("=")` with a
  single-character separator is re-implemented character-exactly as
  `splitChar`, and Python's substring test `m in s` is `List.IsInfix` on
  the character data.
-/

/-- The fixed marker token `BOT_MARKER` from `app.py`. -/
def BOT_MARKER : String := "<!-- code-review-bot -->"

/-- The fixed commit-status context `STATUS_CONTEXT` from `app.py`. -/
def STATUS_CONTEXT : String := "code-review/pre-commit"

/-- Python `s.split(sep)` for a one-character separator `sep`, on the
character list of the string.  `"".split(sep) = [""]`, and every
occurrence of `sep` starts a new field. -/
def splitChar (sep : Char) : List Char → List (List Char)
  | [] => [[]]
  | c :: cs =>
    match splitChar sep cs with
    | [] => [[c]]
    | h :: t => if c = sep then [] :: h :: t else (c :: h) :: t

/-- `verify_signature` from `app.py`.

`secret` is the configured `WEBHOOK_SECRET` (the empty string when the
environment variable is unset).  `hmacHex` stands for the external
library primitive `hmac.new(secret, payload, sha256).hexdigest()`;
`app.py` only ever consumes its result string.  The Python code unpacks
`signature_header.split("=")` into exactly two variables, which raises
`ValueError` when the split does not yield exactly two parts; that raise
is modelled as `none`.  `hmac.compare_digest` is a (constant-time)
string equality. -/
def verify_signature (secret : String) (hmacHex : String → List Nat → String)
    (payload : List Nat) (signatureHeader : String) : Option Bool :=
  if secret.data.isEmpty then some true
  else if signatureHeader.data.isEmpty then some false
  else
    match splitChar '=' signatureHeader.data with
    | [_algo, githubSig] => some (decide ((hmacHex secret payload).data = githubSig))
    | _ => none

theorem splitChar_ne_nil (sep : Char) (l : List Char) : splitChar sep l ≠ [] := by
  induction l with
  | nil => simp [splitChar]
  | cons c cs ih =>
    simp only [splitChar]
    split
    · simp
    · split <;> simp

theorem splitChar_of_not_mem (sep : Char) (l : List Char) (h : sep ∉ l) :
    splitChar sep l = [l] := by
  induction l with
  | nil => rfl
  | cons c cs ih =>
    have hc : c ≠ sep := fun hc => h (hc ▸ List.mem_cons_self c cs)
    have hcs : sep ∉ cs := fun hm => h (List.mem_cons_of_mem c hm)
    simp only [splitChar, ih hcs]
    simp [hc]

theorem splitChar_append_sep (sep : Char) (l₁ l₂ : List Char) (h : sep ∉ l₁) :
    splitChar sep (l₁ ++ sep :: l₂) = l₁ :: splitChar sep l₂ := by
  induction l₁ with
  | nil =>
    simp only [List.nil_append, splitChar]
    rcases h2 : splitChar sep l₂ with _ | ⟨h1, t⟩
    · exact absurd h2 (splitChar_ne_nil sep l₂)
    · simp
  | cons c cs ih =>
    have hc : c ≠ sep := fun hc => h (hc ▸ List.mem_cons_self c cs)
    have hcs : sep ∉ cs := fun hm => h (List.mem_cons_of_mem c hm)
    simp only [List.cons_append, splitChar, List.append_eq]
    rw [ih hcs]
    simp [hc]

theorem data_append3 (L M D : String) :
    (L ++ M ++ D).data = L.data ++ (M.data ++ D.data) := by
  rw [String.data_append, String.data_append, List.append_assoc]

/-- Evaluation of `verify_signature` on a well-formed two-part header
`L=D` where neither part contains the separator: the label `L` is
ignored and the supplied digest `D` is compared with the computed hex
digest. -/
theorem verify_signature_two_parts (secret : String)
    (hmacHex : String → List Nat → String) (payload : List Nat) (L D : String)
    (hsec : ¬ secret.data.isEmpty) (hL : '=' ∉ L.data) (hD : '=' ∉ D.data) :
    verify_signature secret hmacHex payload (L ++ "=" ++ D)
      = some (decide (hmacHex secret payload = D)) := by
  have hdata : (L ++ "=" ++ D).data = L.data ++ '=' :: D.data := by
    rw [data_append3]
    rfl
  have hsplit : splitChar '=' (L ++ "=" ++ D).data = [L.data, D.data] := by
    rw [hdata, splitChar_append_sep '=' L.data D.data hL,
      splitChar_of_not_mem '=' D.data hD]
  have hne : ¬ (L ++ "=" ++ D).data.isEmpty := by
    rw [hdata]
    simp
  simp only [verify_signature, if_neg hsec, if_neg hne, hsplit]
  have : ((hmacHex secret payload).data = D.data) ↔ (hmacHex secret payload = D) := by
    constructor
    · intro h
      exact String.ext h
    · intro h
      rw [h]
  rw [decide_eq_decide.mpr this]

/-- One entry of `CodeReviewer.errors` in `app.py`: a dict with keys
`file`, `line`, `column`, `code`, `message`.  (No severity field exists
in the code.) -/
structure Finding where
  file : String
  line : Nat
  column : Nat
  code : String
  message : String
deriving DecidableEq, Repr

/-- One element of the JSON array printed by `ruff check
--output-format=json`, restricted to the keys `app.py` reads. -/
structure RuffIssue where
  filename : String
  row : Nat
  column : Nat
  code : String
  message : String
deriving DecidableEq, Repr

/-- What the external `ruff check` process wrote to stdout, as seen by
`run_ruff`: nothing (falsy, skipped), a JSON list of issues
(`json.loads` succeeds), or non-empty unparseable text (`json.loads`
raises). -/
inductive RuffStdout where
  | empty
  | issues (l : List RuffIssue)
  | malformed
deriving DecidableEq, Repr

/-- The observable behaviour of the external analysis tools during one
review run. -/
structure ToolEnv where
  ruffStdout : RuffStdout
  formatExit : Nat
  pytestExit : Nat
deriving DecidableEq, Repr

/-- An external analysis-tool process spawned by the `CodeReviewer`. -/
inductive ToolCall where
  | ruff
  | ruffFormat
  | pytest
deriving DecidableEq, Repr

/-- `CodeReviewer.changed_python_files`: the scoped file list — the
changed files (lines of `git diff --name-only`) whose name ends in
`.py`. -/
def changed_python_files (changed : List String) : List String :=
  changed.filter (fun f => List.isSuffixOf ".py".data f.data)

/-- `CodeReviewer.run_ruff`: skipped entirely when `files` is empty;
otherwise one `ruff check` invocation whose stdout is `stdout`.  An
empty stdout contributes nothing; a parsed issue list is mapped to
findings; unparseable stdout makes `json.loads` raise
(`Except.error`). -/
def run_ruff (files : List String) (stdout : RuffStdout) :
    List ToolCall × Except Unit (List Finding) :=
  if files.isEmpty then ([], Except.ok [])
  else
    ([ToolCall.ruff],
      match stdout with
      | RuffStdout.empty => Except.ok []
      | RuffStdout.issues l =>
          Except.ok (l.map fun i => ⟨i.filename, i.row, i.column, i.code, i.message⟩)
      | RuffStdout.malformed => Except.error ())

/-- `CodeReviewer.run_format_check`: skipped when `files` is empty;
otherwise one `ruff format --check` invocation.  A non-zero exit code
appends one fixed finding per file of `files`. -/
def run_format_check (files : List String) (exitCode : Nat) :
    List ToolCall × List Finding :=
  if files.isEmpty then ([], [])
  else
    ([ToolCall.ruffFormat],
      if exitCode ≠ 0 then
        files.map fun f => ⟨f, 1, 1, "FORMAT", "File is not properly formatted"⟩
      else [])

/-- `CodeReviewer.run_pytest`: always one `pytest -q` invocation; a
non-zero exit code appends one synthetic finding. -/
def run_pytest (exitCode : Nat) : List ToolCall × List Finding :=
  ([ToolCall.pytest],
    if exitCode ≠ 0 then [⟨"tests/", 1, 1, "TEST", "Tests failed"⟩] else [])

/-- `CodeReviewer.run_all`: computes the scoped files, then runs the
three checks in order, accumulating `self.errors`; returns
`not self.errors` as the success flag.  A raise inside `run_ruff`
propagates (`Except.error`), in which case the later checks never run.
The first component is the list of analysis-tool processes actually
spawned. -/
def run_all (changed : List String) (env : ToolEnv) :
    List ToolCall × Except Unit (List Finding × Bool) :=
  let files := changed_python_files changed
  let r := run_ruff files env.ruffStdout
  match r.2 with
  | Except.error e => (r.1, Except.error e)
  | Except.ok ruffFindings =>
    let fc := run_format_check files env.formatExit
    let pt := run_pytest env.pytestExit
    let errors := ruffFindings ++ fc.2 ++ pt.2
    (r.1 ++ fc.1 ++ pt.1, Except.ok (errors, errors.isEmpty))

/-- `CodeReviewer.build_comment`: the marker, a heading, and either a
pass line or one bullet line per finding. -/
def build_comment (errors : List Finding) : String :=
  let body := BOT_MARKER ++ "\n## 🔍 Code Review Results\n\n"
  if errors.isEmpty then body ++ "✅ All checks passed!"
  else
    errors.foldl
      (fun acc e =>
        acc ++ "- `" ++ e.file ++ "` **" ++ toString e.line ++ ":"
          ++ toString e.column ++ "** `" ++ e.code ++ "` — " ++ e.message ++ "\n")
      (body ++ "❌ Found **" ++ toString errors.length ++ "** issue(s):\n\n")

/-- Python's substring test `BOT_MARKER in body` from the comment
clean-up loop of the webhook handler. -/
def hasMarker (body : String) : Bool :=
  decide (BOT_MARKER.data <:+: body.data)

/-- Model of the external formatter alone (not repository code): `ruff
format --check` exits non-zero exactly when some file it was given is
not properly formatted; `unformatted` is the set of files the formatter
would rewrite.  Used to relate exit codes to offending files when
checking the spec's format-check contract. -/
def formatExitCode (unformatted files : List String) : Nat :=
  if files.any (fun f => unformatted.contains f) then 1 else 0

/-- The fields the webhook handler extracts from a pull_request event
payload (`app.py` lines 241-250). -/
structure Payload where
  action : String
  repo : String
  prNumber : Nat
  baseRef : String
  headSha : String
  cloneUrl : String
deriving DecidableEq, Repr

/-- One PR comment as returned by the GitHub list-comments endpoint:
the handler reads only its `id` and `body`. -/
structure Comment where
  id : Nat
  body : String
deriving DecidableEq, Repr

/-- An externally visible side effect of one webhook delivery, in the
order performed: GitHub API calls, workspace creation/deletion, and
analysis-tool processes.  `cleanupWorkspace b` records the
`shutil.rmtree(..., ignore_errors=True)` call, where `b` says whether
the underlying deletion itself failed (swallowed either way). -/
inductive Effect where
  | setStatus (sha state description : String)
  | createWorkspace
  | toolCall (t : ToolCall)
  | cleanupWorkspace (deletionFailed : Bool)
  | listComments (pr : Nat)
  | deleteComment (id : Nat)
  | postComment (pr : Nat) (body : String)
deriving DecidableEq, Repr

/-- The HTTP response of the webhook view function.  `serverError` is an
uncaught Python exception escaping the view (Flask turns it into a
500-class response); the others are the explicit returns of `app.py`. -/
inductive Response where
  | unauthorized
  | ignored
  | result (success : Bool)
  | serverError
deriving DecidableEq, Repr

/-- The reporting phase of the webhook handler (`app.py` lines
266-281): list the PR comments, delete every one whose body contains
`BOT_MARKER`, then set the final status, posting a fresh marker comment
only on failure.  `comments` is the PR's comment list before the run;
the third component is the PR's comment list afterwards; `newId` is the
id GitHub assigns to a newly created comment. -/
def report_phase (pl : Payload) (errors : List Finding) (success : Bool)
    (comments : List Comment) (newId : Nat) :
    List Effect × Response × List Comment :=
  let deletes := (comments.filter fun c => hasMarker c.body).map
    fun c => Effect.deleteComment c.id
  let kept := comments.filter fun c => !(hasMarker c.body)
  let base := Effect.listComments pl.prNumber :: deletes
  let fin :=
    if success then
      (base ++ [Effect.setStatus pl.headSha "success" "All checks passed"], kept)
    else
      (base ++
        [Effect.setStatus pl.headSha "failure"
          ("Found " ++ toString errors.length ++ " issue(s)"),
         Effect.postComment pl.prNumber (build_comment errors)],
       kept ++ [⟨newId, build_comment errors⟩])
  (fin.1, Response.result success, fin.2)

/-- The review phase of the webhook handler (`app.py` lines 252-281):
pending status, workspace creation, then the `try/except/finally` around
clone and analysis.  `cloneOk` says whether the external
clone/fetch/checkout steps all succeeded; `rmFails` says whether the
best-effort workspace deletion itself fails (it is swallowed, so
nothing depends on it).  On an exception the handler sets status
`error`, the `finally` block still deletes the workspace, and the
exception is re-raised. -/
def review_phase (pl : Payload) (cloneOk : Bool) (changed : List String)
    (env : ToolEnv) (rmFails : Bool) (comments : List Comment) (newId : Nat) :
    List Effect × Response × List Comment :=
  let pre := [Effect.setStatus pl.headSha "pending" "Running code quality checks",
              Effect.createWorkspace]
  let failed := fun (calls : List Effect) =>
    (pre ++ calls ++
      [Effect.setStatus pl.headSha "error" "CI execution failed",
       Effect.cleanupWorkspace rmFails],
     Response.serverError, comments)
  if cloneOk then
    match run_all changed env with
    | (calls, Except.error _) => failed (calls.map Effect.toolCall)
    | (calls, Except.ok (errors, success)) =>
      let rp := report_phase pl errors success comments newId
      (pre ++ calls.map Effect.toolCall ++ [Effect.cleanupWorkspace rmFails] ++ rp.1,
       rp.2.1, rp.2.2)
  else failed []

/-- The webhook view function (`app.py` lines 227-281): signature
check, event filter, action filter, then the review phase.  The result
is the effect trace, the HTTP response, and the PR's comment list after
the delivery. -/
def webhook (secret : String) (hmacHex : String → List Nat → String)
    (body : List Nat) (sigHeader : String) (eventHeader : Option String)
    (pl : Payload) (cloneOk : Bool) (changed : List String) (env : ToolEnv)
    (rmFails : Bool) (comments : List Comment) (newId : Nat) :
    List Effect × Response × List Comment :=
  match verify_signature secret hmacHex body sigHeader with
  | none => ([], Response.serverError, comments)
  | some false => ([], Response.unauthorized, comments)
  | some true =>
    if eventHeader = some "pull_request" then
      if pl.action = "opened" ∨ pl.action = "synchronize" then
        review_phase pl cloneOk changed env rmFails comments newId
      else ([], Response.ignored, comments)
    else ([], Response.ignored, comments)

/-- A string made only of lowercase hex characters, the alphabet of
`hashlib`'s `hexdigest()`. -/
def isHexString (s : String) : Bool :=
  s.data.all fun c => c ∈ "0123456789abcdef".data

/-- A concrete stand-in for the external HMAC-SHA256 hex-digest
primitive, used to instantiate theorems on closed inputs. -/
def mockHmac : String → List Nat → String := fun _ _ => "0a1b"

/-- A concrete pull_request payload used to instantiate theorems on
closed inputs. -/
def samplePayload : Payload :=
  ⟨"opened", "octo/repo", 7, "main", "abc123", "https://example.test/repo.git"⟩

theorem isHexString_no_sep {s : String} (h : isHexString s = true) :
    '=' ∉ s.data := by
  intro hm
  have := (List.all_eq_true.mp h) '=' hm
  simp at this

/-- Claim C2: with a configured secret, a header carrying the correct
hex digest after `sha256=` verifies true; a header whose digest part is
a hex string differing from the correct digest verifies false; and with
no configured secret every payload and every header value verifies
true. -/
theorem verify_signature_correct :
    (∀ (secret : String) (hmacHex : String → List Nat → String) (payload : List Nat),
      ¬ secret.data.isEmpty → isHexString (hmacHex secret payload) = true →
      verify_signature secret hmacHex payload ("sha256=" ++ hmacHex secret payload)
        = some true)
    ∧ (∀ (secret : String) (hmacHex : String → List Nat → String) (payload : List Nat)
        (D : String),
      ¬ secret.data.isEmpty → isHexString (hmacHex secret payload) = true →
      isHexString D = true → D ≠ hmacHex secret payload →
      verify_signature secret hmacHex payload ("sha256=" ++ D) = some false)
    ∧ (∀ (hmacHex : String → List Nat → String) (payload : List Nat) (header : String),
      verify_signature "" hmacHex payload header = some true) := by
  have hlabel : ∀ D : String, ("sha256=" ++ D) = "sha256" ++ "=" ++ D := by
    intro D
    have h1 : ("sha256=" : String) = "sha256" ++ "=" := by decide
    rw [h1]
  have hL : '=' ∉ ("sha256" : String).data := by decide
  refine ⟨?_, ?_, ?_⟩
  · intro secret hmacHex payload hsec hhex
    rw [hlabel, verify_signature_two_parts secret hmacHex payload "sha256"
      (hmacHex secret payload) hsec hL (isHexString_no_sep hhex)]
    simp
  · intro secret hmacHex payload D hsec hhex hDhex hne
    rw [hlabel, verify_signature_two_parts secret hmacHex payload "sha256" D hsec hL
      (isHexString_no_sep hDhex)]
    simp only [Option.some.injEq, decide_eq_false_iff_not]
    exact fun h => hne (h.symm)
  · intro hmacHex payload header
    simp [verify_signature]

/-- Witness for C2 at concrete inputs: secret "k", the mock digest
primitive, payload [1]. -/
theorem verify_signature_correct_witness :
    verify_signature "k" mockHmac [1] ("sha256=" ++ mockHmac "k" [1]) = some true
    ∧ verify_signature "k" mockHmac [1] ("sha256=" ++ "ffff") = some false
    ∧ verify_signature "" mockHmac [1] "sha256=0a1b" = some true :=
  ⟨verify_signature_correct.1 "k" mockHmac [1] (by decide) (by decide),
   verify_signature_correct.2.1 "k" mockHmac [1] "ffff" (by decide) (by decide)
     (by decide) (by decide),
   verify_signature_correct.2.2 mockHmac [1] "sha256=0a1b"⟩

/-- Counterexample to C10 as stated: the property does not hold for
*every* label string `L`.  For `L := "sha1=x"` (a label containing a
further `=`), the header `L=<digest>` carries the correct digest, yet
`verify_signature` raises `ValueError` (the three-way split cannot be
unpacked into two variables) instead of returning true. -/
theorem verify_signature_label_with_separator :
    mockHmac "k" [1] = "0a1b"
    ∧ verify_signature "k" mockHmac [1] ("sha1=x" ++ "=" ++ mockHmac "k" [1]) = none := by
  decide

/-- C10 amended: with a configured secret, for every label `L` and
digest candidate `D` that themselves contain no `=`, the header `L=D`
verifies true exactly when `D` is the computed HMAC hex digest — the
label (algorithm) component is never inspected.  (A label or digest
containing a further `=` instead makes the split-unpacking raise.) -/
theorem verify_signature_ignores_algorithm (secret : String)
    (hmacHex : String → List Nat → String) (payload : List Nat) (L D : String)
    (hsec : ¬ secret.data.isEmpty) (hL : '=' ∉ L.data) (hD : '=' ∉ D.data) :
    verify_signature secret hmacHex payload (L ++ "=" ++ D)
      = some (decide (D = hmacHex secret payload)) := by
  rw [verify_signature_two_parts secret hmacHex payload L D hsec hL hD]
  congr 1
  exact decide_eq_decide.mpr eq_comm

/-- Witness for the amended C10: a header claiming `sha1=` but carrying
the correct SHA-256 digest is accepted. -/
theorem verify_signature_ignores_algorithm_witness :
    verify_signature "k" mockHmac [1] ("sha1" ++ "=" ++ "0a1b") = some true := by
  simpa using
    verify_signature_ignores_algorithm "k" mockHmac [1] "sha1" "0a1b"
      (by decide) (by decide) (by decide)

instance (ε α : Type) [DecidableEq ε] [DecidableEq α] : DecidableEq (Except ε α) :=
  fun a b =>
  match a, b with
  | Except.ok x, Except.ok y =>
    if h : x = y then isTrue (h ▸ rfl) else isFalse fun hc => h (Except.ok.inj hc)
  | Except.error x, Except.error y =>
    if h : x = y then isTrue (h ▸ rfl) else isFalse fun hc => h (Except.error.inj hc)
  | Except.ok _, Except.error _ => isFalse fun hc => Except.noConfusion hc
  | Except.error _, Except.ok _ => isFalse fun hc => Except.noConfusion hc

/-- Counterexample to C4 as stated: with an empty scoped file list the
runner does NOT skip tool invocation entirely — `pytest` still runs —
and when the test suite fails the result is neither success nor an
empty findings list. -/
theorem run_all_empty_scope_runs_pytest :
    changed_python_files ["notes.txt"] = []
    ∧ (run_all ["notes.txt"] ⟨RuffStdout.empty, 0, 1⟩).1 ≠ []
    ∧ (run_all ["notes.txt"] ⟨RuffStdout.empty, 0, 1⟩).2 ≠ Except.ok ([], true) := by
  decide

/-- C4 amended: with an empty scoped file list the lint and format
checks are skipped (no lint or format tool is invoked and they
contribute no findings), but the test runner is still invoked; the run
returns success with an empty findings list exactly when the test suite
exits zero, and otherwise one synthetic TEST finding and failure. -/
theorem run_all_empty_scope (changed : List String) (env : ToolEnv)
    (h : changed_python_files changed = []) :
    (run_all changed env).1 = [ToolCall.pytest]
    ∧ (env.pytestExit = 0 → (run_all changed env).2 = Except.ok ([], true))
    ∧ (env.pytestExit ≠ 0 → (run_all changed env).2
        = Except.ok ([⟨"tests/", 1, 1, "TEST", "Tests failed"⟩], false)) := by
  unfold run_all
  rw [h]
  refine ⟨by simp [run_ruff, run_format_check, run_pytest], ?_, ?_⟩
  · intro hp
    simp [run_ruff, run_format_check, run_pytest, hp]
  · intro hp
    simp [run_ruff, run_format_check, run_pytest, hp]

/-- Witness for the amended C4 at concrete inputs (scoped list empty,
test suite passing resp. failing). -/
theorem run_all_empty_scope_witness :
    changed_python_files ["notes.txt"] = []
    ∧ (run_all ["notes.txt"] ⟨RuffStdout.empty, 0, 0⟩).2 = Except.ok ([], true)
    ∧ (run_all ["notes.txt"] ⟨RuffStdout.malformed, 3, 1⟩).2
        = Except.ok ([⟨"tests/", 1, 1, "TEST", "Tests failed"⟩], false) :=
  ⟨by decide,
   (run_all_empty_scope ["notes.txt"] ⟨RuffStdout.empty, 0, 0⟩ (by decide)).2.1 rfl,
   (run_all_empty_scope ["notes.txt"] ⟨RuffStdout.malformed, 3, 1⟩ (by decide)).2.2
     (by decide)⟩

/-- C5 (code bug): on a non-empty scoped file list, malformed linter
stdout does not yield zero findings and a continuing pipeline — the
`json.loads` call raises, the exception propagates out of `run_all`,
and the webhook handler aborts the delivery with commit status `error`. -/
theorem run_ruff_malformed_aborts :
    run_ruff ["a.py"] RuffStdout.malformed = ([ToolCall.ruff], Except.error ())
    ∧ (run_all ["a.py"] ⟨RuffStdout.malformed, 0, 0⟩).2 = Except.error ()
    ∧ (webhook "" mockHmac [] "" (some "pull_request") samplePayload true ["a.py"]
        ⟨RuffStdout.malformed, 0, 0⟩ false [] 0).2.1 = Response.serverError
    ∧ Effect.setStatus samplePayload.headSha "error" "CI execution failed"
        ∈ (webhook "" mockHmac [] "" (some "pull_request") samplePayload true ["a.py"]
          ⟨RuffStdout.malformed, 0, 0⟩ false [] 0).1 := by
  decide

/-- Counterexample to C6 as stated: the format check does not produce
one finding per *offending* file.  With scoped files `a.py`, `b.py` of
which only `a.py` is unformatted, the check-only run exits non-zero and
the code emits a finding for every scoped file — two findings, not
one. -/
theorem run_format_check_flags_all_files :
    (["a.py", "b.py"].filter fun f => ["a.py"].contains f).length = 1
    ∧ (run_format_check ["a.py", "b.py"]
        (formatExitCode ["a.py"] ["a.py", "b.py"])).2.length = 2 := by
  decide

/-- C6 amended: on a non-empty scoped file list, a non-zero exit of the
check-only formatter produces exactly one finding per *scoped* file
(whether or not that particular file is offending), each at line 1,
column 1 with the fixed code token FORMAT (the code's finding records
carry no severity field); a zero exit produces no findings. -/
theorem run_format_check_per_scoped_file (files : List String) (exitCode : Nat)
    (hne : files ≠ []) :
    (exitCode ≠ 0 →
      (run_format_check files exitCode).2
        = files.map fun f => ⟨f, 1, 1, "FORMAT", "File is not properly formatted"⟩)
    ∧ (exitCode = 0 → (run_format_check files exitCode).2 = []) := by
  unfold run_format_check
  have hni : files.isEmpty = false := by simpa using hne
  rw [hni]
  constructor
  · intro h
    simp [h]
  · intro h
    simp [h]

/-- Witness for the amended C6: two scoped files, failing then passing
format run. -/
theorem run_format_check_per_scoped_file_witness :
    (["a.py", "b.py"] : List String) ≠ []
    ∧ (run_format_check ["a.py", "b.py"] 1).2
        = [⟨"a.py", 1, 1, "FORMAT", "File is not properly formatted"⟩,
           ⟨"b.py", 1, 1, "FORMAT", "File is not properly formatted"⟩]
    ∧ (run_format_check ["a.py", "b.py"] 0).2 = [] :=
  ⟨by decide,
   (run_format_check_per_scoped_file ["a.py", "b.py"] 1 (by decide)).1 (by decide),
   (run_format_check_per_scoped_file ["a.py", "b.py"] 0 (by decide)).2 rfl⟩

/-- C7 (code bug): with a configured secret, a missing header is
rejected with 401 and no side effects, but a malformed header without
an `=` makes `verify_signature` raise `ValueError` (modelled `none`),
so the handler answers with an uncaught-exception 500 response instead
of the specified 401 — still with no workspace created and no external
call made. -/
theorem verify_signature_malformed_header_raises :
    verify_signature "s" mockHmac [1, 2] "deadbeef" = none
    ∧ webhook "s" mockHmac [1, 2] "deadbeef" (some "pull_request") samplePayload
        true [] ⟨RuffStdout.empty, 0, 0⟩ false [] 0 = ([], Response.serverError, [])
    ∧ verify_signature "s" mockHmac [1, 2] "" = some false
    ∧ webhook "s" mockHmac [1, 2] "" (some "pull_request") samplePayload
        true [] ⟨RuffStdout.empty, 0, 0⟩ false [] 0 = ([], Response.unauthorized, []) := by
  decide

/-- The number of live comments on the PR whose body carries the bot
marker. -/
def countMarked (cs : List Comment) : Nat :=
  (cs.filter fun c => hasMarker c.body).length

/-- The GitHub comment operations among the recorded effects (listing,
deleting, posting). -/
def isCommentOp : Effect → Bool
  | Effect.listComments _ => true
  | Effect.deleteComment _ => true
  | Effect.postComment _ _ => true
  | _ => false

theorem foldl_data_isPrefix (f : String → Finding → String)
    (hf : ∀ acc e, acc.data <+: (f acc e).data) (l : List Finding) :
    ∀ acc : String, acc.data <+: (l.foldl f acc).data := by
  induction l with
  | nil => intro acc; exact List.prefix_refl _
  | cons e t ih => intro acc; exact List.IsPrefix.trans (hf acc e) (ih (f acc e))

/-- Every comment built by `build_comment` contains the bot marker: the
body always starts with `BOT_MARKER`. -/
theorem hasMarker_build_comment (errors : List Finding) :
    hasMarker (build_comment errors) = true := by
  have key : ∀ s : String, BOT_MARKER.data <+: s.data → hasMarker s = true := by
    intro s h
    exact decide_eq_true (List.IsPrefix.isInfix h)
  unfold build_comment
  split
  · apply key
    rw [String.data_append, String.data_append]
    rw [List.append_assoc]
    exact List.prefix_append _ _
  · apply key
    refine List.IsPrefix.trans ?_ (foldl_data_isPrefix _ ?_ errors _)
    · rw [String.data_append, String.data_append]
      rw [List.append_assoc]
      exact List.prefix_append _ _
    · intro acc e
      simp only [String.data_append, List.append_assoc]
      exact List.prefix_append _ _

theorem countMarked_kept (comments : List Comment) :
    countMarked (comments.filter fun c => !(hasMarker c.body)) = 0 := by
  unfold countMarked
  rw [List.filter_filter]
  simp

theorem countMarked_append (a b : List Comment) :
    countMarked (a ++ b) = countMarked a + countMarked b := by
  unfold countMarked
  rw [List.filter_append, List.length_append]

theorem filter_commentOps_toolCalls (calls : List ToolCall) :
    (calls.map Effect.toolCall).filter isCommentOp = [] := by
  induction calls with
  | nil => rfl
  | cons c t ih => simp [isCommentOp, ih]

theorem filter_commentOps_deletes (l : List Comment) :
    ((l.map fun c => Effect.deleteComment c.id).filter isCommentOp)
      = l.map fun c => Effect.deleteComment c.id := by
  induction l with
  | nil => rfl
  | cons c t ih => simp [isCommentOp, ih]

theorem run_all_ok_success (changed : List String) (env : ToolEnv)
    {calls : List ToolCall} {errs : List Finding} {s : Bool}
    (h : run_all changed env = (calls, Except.ok (errs, s))) :
    s = errs.isEmpty := by
  simp only [run_all] at h
  rcases hr : (run_ruff (changed_python_files changed) env.ruffStdout).2 with e | rf
  · rw [hr] at h
    simp at h
  · rw [hr] at h
    simp only [Prod.mk.injEq, Except.ok.injEq] at h
    obtain ⟨-, h2, h3⟩ := h
    rw [← h2, ← h3]

/-- C8: a verified delivery whose event is not pull_request, or whose
pull_request action is neither opened nor synchronize, gets the 200
"Ignored" response with no effect at all: no status set, no workspace
created, no clone, and the PR's comments unchanged. -/
theorem webhook_ignores_filtered_events
    (secret : String) (hmacHex : String → List Nat → String) (body : List Nat)
    (sigHeader : String) (eventHeader : Option String) (pl : Payload)
    (cloneOk : Bool) (changed : List String) (env : ToolEnv) (rmFails : Bool)
    (comments : List Comment) (newId : Nat)
    (hsig : verify_signature secret hmacHex body sigHeader = some true) :
    (eventHeader ≠ some "pull_request" →
      webhook secret hmacHex body sigHeader eventHeader pl cloneOk changed env
        rmFails comments newId = ([], Response.ignored, comments))
    ∧ (pl.action ≠ "opened" → pl.action ≠ "synchronize" →
      webhook secret hmacHex body sigHeader eventHeader pl cloneOk changed env
        rmFails comments newId = ([], Response.ignored, comments)) := by
  constructor
  · intro hev
    simp only [webhook, hsig]
    rw [if_neg hev]
  · intro h1 h2
    simp only [webhook, hsig]
    by_cases hev : eventHeader = some "pull_request"
    · rw [if_pos hev, if_neg]
      rintro (h | h)
      · exact h1 h
      · exact h2 h
    · rw [if_neg hev]

/-- Witness for C8: a verified `closed` pull_request action and a
verified non-pull_request event are both ignored without side
effects. -/
theorem webhook_ignores_filtered_events_witness :
    webhook "" mockHmac [] "" (some "push") samplePayload true []
        ⟨RuffStdout.empty, 0, 0⟩ false [⟨2, "hi"⟩] 0
      = ([], Response.ignored, [⟨2, "hi"⟩])
    ∧ webhook "" mockHmac [] "" (some "pull_request")
        ⟨"closed", "octo/repo", 7, "main", "abc123", "u"⟩ true []
        ⟨RuffStdout.empty, 0, 0⟩ false [⟨2, "hi"⟩] 0
      = ([], Response.ignored, [⟨2, "hi"⟩]) :=
  ⟨(webhook_ignores_filtered_events "" mockHmac [] "" (some "push") samplePayload
      true [] ⟨RuffStdout.empty, 0, 0⟩ false [⟨2, "hi"⟩] 0 (by decide)).1 (by decide),
   (webhook_ignores_filtered_events "" mockHmac [] "" (some "pull_request")
      ⟨"closed", "octo/repo", 7, "main", "abc123", "u"⟩ true []
      ⟨RuffStdout.empty, 0, 0⟩ false [⟨2, "hi"⟩] 0 (by decide)).2
      (by decide) (by decide)⟩

/-- C9: for a completed analysis run the success flag is true exactly
when the accumulated findings list is empty, and the handler's 200
response reports exactly that boolean. -/
theorem webhook_success_iff_no_findings
    (secret : String) (hmacHex : String → List Nat → String) (body : List Nat)
    (sigHeader : String) (eventHeader : Option String) (pl : Payload)
    (changed : List String) (env : ToolEnv) (rmFails : Bool)
    (comments : List Comment) (newId : Nat)
    (calls : List ToolCall) (errs : List Finding) (s : Bool)
    (hsig : verify_signature secret hmacHex body sigHeader = some true)
    (hev : eventHeader = some "pull_request")
    (hact : pl.action = "opened" ∨ pl.action = "synchronize")
    (hrun : run_all changed env = (calls, Except.ok (errs, s))) :
    s = errs.isEmpty
    ∧ (webhook secret hmacHex body sigHeader eventHeader pl true changed env
        rmFails comments newId).2.1 = Response.result errs.isEmpty := by
  have hs := run_all_ok_success changed env hrun
  refine ⟨hs, ?_⟩
  simp only [webhook, hsig, hev, if_pos rfl, if_pos hact, review_phase, if_pos rfl,
    hrun, report_phase]
  rw [hs]
  simp

/-- Witness for C9: a clean run reports success true; a run with one
format finding reports success false. -/
theorem webhook_success_iff_no_findings_witness :
    (run_all ["a.py"] ⟨RuffStdout.empty, 0, 0⟩
      = ([ToolCall.ruff, ToolCall.ruffFormat, ToolCall.pytest], Except.ok ([], true)))
    ∧ (webhook "" mockHmac [] "" (some "pull_request") samplePayload true ["a.py"]
        ⟨RuffStdout.empty, 0, 0⟩ false [] 0).2.1 = Response.result true :=
  ⟨by decide,
   by
    simpa using
      (webhook_success_iff_no_findings "" mockHmac [] "" (some "pull_request")
        samplePayload ["a.py"] ⟨RuffStdout.empty, 0, 0⟩ false [] 0
        [ToolCall.ruff, ToolCall.ruffFormat, ToolCall.pytest] [] true
        (by decide) rfl (Or.inl rfl) (by decide)).2⟩

/-- C3: if clone/fetch/checkout or the analysis run raises, the handler
sets commit status `error` with description "CI execution failed",
still deletes the workspace on that exit path (a failing deletion being
swallowed: the conclusion holds for every value of `rmFails`), leaves
the PR comments untouched, and re-raises, so the delivery fails with an
uncaught-exception response. -/
theorem webhook_failure_sets_error_status
    (secret : String) (hmacHex : String → List Nat → String) (body : List Nat)
    (sigHeader : String) (eventHeader : Option String) (pl : Payload)
    (cloneOk : Bool) (changed : List String) (env : ToolEnv) (rmFails : Bool)
    (comments : List Comment) (newId : Nat)
    (hsig : verify_signature secret hmacHex body sigHeader = some true)
    (hev : eventHeader = some "pull_request")
    (hact : pl.action = "opened" ∨ pl.action = "synchronize")
    (hfail : cloneOk = false ∨ (run_all changed env).2 = Except.error ()) :
    (webhook secret hmacHex body sigHeader eventHeader pl cloneOk changed env
        rmFails comments newId).2.1 = Response.serverError
    ∧ Effect.setStatus pl.headSha "error" "CI execution failed"
        ∈ (webhook secret hmacHex body sigHeader eventHeader pl cloneOk changed env
          rmFails comments newId).1
    ∧ Effect.cleanupWorkspace rmFails
        ∈ (webhook secret hmacHex body sigHeader eventHeader pl cloneOk changed env
          rmFails comments newId).1
    ∧ (webhook secret hmacHex body sigHeader eventHeader pl cloneOk changed env
        rmFails comments newId).2.2 = comments := by
  simp only [webhook, hsig, hev, if_pos rfl, if_pos hact]
  rcases hfail with hc | hr
  · subst hc
    simp [review_phase]
  · cases cloneOk with
    | false => simp [review_phase]
    | true =>
      rcases hrr : run_all changed env with ⟨calls, r⟩
      rw [hrr] at hr
      simp only at hr
      subst hr
      simp [review_phase, hrr]

/-- Witness for C3 at concrete inputs: a failing clone. -/
theorem webhook_failure_sets_error_status_witness :
    (webhook "" mockHmac [] "" (some "pull_request") samplePayload false []
        ⟨RuffStdout.empty, 0, 0⟩ true [⟨2, "hi"⟩] 0).2.1 = Response.serverError
    ∧ Effect.setStatus samplePayload.headSha "error" "CI execution failed"
        ∈ (webhook "" mockHmac [] "" (some "pull_request") samplePayload false []
          ⟨RuffStdout.empty, 0, 0⟩ true [⟨2, "hi"⟩] 0).1
    ∧ Effect.cleanupWorkspace true
        ∈ (webhook "" mockHmac [] "" (some "pull_request") samplePayload false []
          ⟨RuffStdout.empty, 0, 0⟩ true [⟨2, "hi"⟩] 0).1
    ∧ (webhook "" mockHmac [] "" (some "pull_request") samplePayload false []
        ⟨RuffStdout.empty, 0, 0⟩ true [⟨2, "hi"⟩] 0).2.2 = [⟨2, "hi"⟩] :=
  webhook_failure_sets_error_status "" mockHmac [] "" (some "pull_request")
    samplePayload false [] ⟨RuffStdout.empty, 0, 0⟩ true [⟨2, "hi"⟩] 0
    (by decide) rfl (Or.inl rfl) (Or.inl rfl)

/-- C1: in a run that reaches the reporting phase, the GitHub comment
operations are, in order: one listing of the PR comments, one deletion
per existing marker-bearing comment, and — only afterwards and only
when there are findings — a single posting of a new marker-bearing
comment.  The PR afterwards carries 0 marker comments when the run had
no findings and 1 when it had findings, never more than 1. -/
theorem webhook_comment_invariant
    (secret : String) (hmacHex : String → List Nat → String) (body : List Nat)
    (sigHeader : String) (eventHeader : Option String) (pl : Payload)
    (changed : List String) (env : ToolEnv) (rmFails : Bool)
    (comments : List Comment) (newId : Nat)
    (calls : List ToolCall) (errs : List Finding) (s : Bool)
    (hsig : verify_signature secret hmacHex body sigHeader = some true)
    (hev : eventHeader = some "pull_request")
    (hact : pl.action = "opened" ∨ pl.action = "synchronize")
    (hrun : run_all changed env = (calls, Except.ok (errs, s))) :
    (webhook secret hmacHex body sigHeader eventHeader pl true changed env
        rmFails comments newId).1.filter isCommentOp
      = Effect.listComments pl.prNumber
          :: ((comments.filter fun c => hasMarker c.body).map
              fun c => Effect.deleteComment c.id)
          ++ (if errs.isEmpty then []
              else [Effect.postComment pl.prNumber (build_comment errs)])
    ∧ countMarked (webhook secret hmacHex body sigHeader eventHeader pl true changed
        env rmFails comments newId).2.2 = (if errs.isEmpty then 0 else 1)
    ∧ countMarked (webhook secret hmacHex body sigHeader eventHeader pl true changed
        env rmFails comments newId).2.2 ≤ 1 := by
  have hs := run_all_ok_success changed env hrun
  simp only [webhook, hsig, hev, if_pos rfl, if_pos hact, review_phase, if_pos rfl,
    hrun, report_phase]
  rw [hs]
  by_cases he : errs.isEmpty
  · rw [if_pos he]
    refine ⟨?_, ?_, ?_⟩
    · simp [List.filter_append, isCommentOp, filter_commentOps_toolCalls,
        filter_commentOps_deletes, he]
    · simp [he, countMarked_kept]
    · simp [he, countMarked_kept]
  · rw [if_neg he]
    have h1 : countMarked
        ((comments.filter fun c => !(hasMarker c.body))
          ++ [⟨newId, build_comment errs⟩]) = 1 := by
      rw [countMarked_append, countMarked_kept]
      simp [countMarked, hasMarker_build_comment]
    refine ⟨?_, ?_, ?_⟩
    · simp [List.filter_append, isCommentOp, filter_commentOps_toolCalls,
        filter_commentOps_deletes, he]
    · simp only [he, if_false, Bool.false_eq_true]
      simpa using h1
    · simpa using le_of_eq h1

/-- Witness for C1: a run with one stale marker comment and one format
finding — the old marker comment is deleted, one new one is posted,
leaving exactly one marker comment. -/
theorem webhook_comment_invariant_witness :
    run_all ["a.py"] ⟨RuffStdout.empty, 1, 0⟩
      = ([ToolCall.ruff, ToolCall.ruffFormat, ToolCall.pytest],
         Except.ok ([⟨"a.py", 1, 1, "FORMAT", "File is not properly formatted"⟩], false))
    ∧ countMarked (webhook "" mockHmac [] "" (some "pull_request") samplePayload true
        ["a.py"] ⟨RuffStdout.empty, 1, 0⟩ false
        [⟨1, "<!-- code-review-bot -->\nold"⟩, ⟨2, "hi"⟩] 99).2.2 = 1
    ∧ (webhook "" mockHmac [] "" (some "pull_request") samplePayload true
        ["a.py"] ⟨RuffStdout.empty, 1, 0⟩ false
        [⟨1, "<!-- code-review-bot -->\nold"⟩, ⟨2, "hi"⟩] 99).1.filter isCommentOp
      = [Effect.listComments 7, Effect.deleteComment 1,
         Effect.postComment 7
           (build_comment [⟨"a.py", 1, 1, "FORMAT", "File is not properly formatted"⟩])] :=
  ⟨by decide,
   by
    simpa using
      (webhook_comment_invariant "" mockHmac [] "" (some "pull_request")
        samplePayload ["a.py"] ⟨RuffStdout.empty, 1, 0⟩ false
        [⟨1, "<!-- code-review-bot -->\nold"⟩, ⟨2, "hi"⟩] 99
        [ToolCall.ruff, ToolCall.ruffFormat, ToolCall.pytest]
        [⟨"a.py", 1, 1, "FORMAT", "File is not properly formatted"⟩] false
        (by decide) rfl (Or.inl rfl) (by decide)).2.1,
   by decide⟩
